import Mathlib

/-!
Shallow embedding of the two analysis pipelines of the repository
(`src/PyBank/main.py` and `src/PyPoll/main.py`).

Modelling conventions:
* Python `Decimal` values (exact decimal arithmetic) are modelled as `ℚ`;
  Python `float` division (`votes*100/total_votes` in PyPoll) is likewise
  modelled as exact division in `ℚ`.
* Budget rows `[month, profit_str]` are modelled as `String × ℚ`, the amount
  already parsed (`Decimal(profit)` in the source); election rows
  `[ballot_id, county, candidate]` as `String × String × String`.
* Python code that raises an exception (division by zero, unpacking `None`,
  `winner[0]` on `None`) is modelled by returning `none`.
-/

namespace PyBank

/-- The analysis dict built by `analyze_budget_data` (src/PyBank/main.py,
lines 148-154): keys `total_months`, `total`, `average_change`,
`greatest_increase`, `greatest_decrease`. -/
structure BudgetAnalysis where
  total_months : ℕ
  total : ℚ
  average_change : ℚ
  greatest_increase : Option (String × ℚ)
  greatest_decrease : Option (String × ℚ)
deriving DecidableEq, Repr

/-- One step of the extremum tracking `if greatest_increase is None or
greatest_increase[1] < change: greatest_increase = (month, change)`
(src/PyBank/main.py lines 139-140); also the winner update of PyPoll
(`if winner is None or votes > winner[1]`, src/PyPoll/main.py line 119),
which replaces the accumulator exactly when its second component is
strictly below the new one. -/
def argmaxStep {α : Type} {β : Type} [LinearOrder β]
    (acc : Option (α × β)) (p : α × β) : Option (α × β) :=
  match acc with
  | none => some p
  | some g => if g.2 < p.2 then some p else some g

/-- One step of `if greatest_decrease is None or greatest_decrease[1] > change:
greatest_decrease = (month, change)` (src/PyBank/main.py lines 141-142). -/
def argminStep {α : Type} {β : Type} [LinearOrder β]
    (acc : Option (α × β)) (p : α × β) : Option (α × β) :=
  match acc with
  | none => some p
  | some g => if g.2 > p.2 then some p else some g

/-- The loop-carried state of the `for month, profit in budget_data` loop of
`analyze_budget_data` (src/PyBank/main.py lines 114-145). -/
structure BudgetState where
  total_profit : ℚ
  total_change : ℚ
  last_profit : Option ℚ
  change : Option ℚ
  greatest_increase : Option (String × ℚ)
  greatest_decrease : Option (String × ℚ)
deriving Repr

/-- State before the loop (src/PyBank/main.py lines 114-123):
`total_profit = Decimal("0.00")`, `total_change = Decimal("0.00")`,
`last_profit = None`, `change = None`, both extrema `None`. -/
def initBudgetState : BudgetState :=
  { total_profit := 0
    total_change := 0
    last_profit := none
    change := none
    greatest_increase := none
    greatest_decrease := none }

/-- One iteration of the loop body (src/PyBank/main.py lines 125-145):
accumulate the profit; if a previous profit exists set
`change = profit - last_profit` and add it to `total_change`; if `change`
is set update both extrema; store the profit as `last_profit`. -/
def budgetStep (s : BudgetState) (row : String × ℚ) : BudgetState :=
  let profit := row.2
  match s.last_profit with
  | some lp =>
      let change := profit - lp
      { total_profit := s.total_profit + profit
        total_change := s.total_change + change
        last_profit := some profit
        change := some change
        greatest_increase := argmaxStep s.greatest_increase (row.1, change)
        greatest_decrease := argminStep s.greatest_decrease (row.1, change) }
  | none =>
      match s.change with
      | some c =>
          { s with
            total_profit := s.total_profit + profit
            last_profit := some profit
            greatest_increase := argmaxStep s.greatest_increase (row.1, c)
            greatest_decrease := argminStep s.greatest_decrease (row.1, c) }
      | none =>
          { s with
            total_profit := s.total_profit + profit
            last_profit := some profit }

/-- `analyze_budget_data` (src/PyBank/main.py lines 96-160).
`total_changes = total_months - 1` is an `int`, so it is `-1` on the empty
dataset; the final `total_change/total_changes` raises `ZeroDivisionError`
exactly when `total_changes == 0`, modelled as `none`. -/
def analyze_budget_data (budget_data : List (String × ℚ)) : Option BudgetAnalysis :=
  let total_months := budget_data.length
  let total_changes : ℤ := (total_months : ℤ) - 1
  let final := List.foldl budgetStep initBudgetState budget_data
  if total_changes = 0 then none
  else
    some { total_months := total_months
           total := final.total_profit
           average_change := final.total_change / (total_changes : ℚ)
           greatest_increase := final.greatest_increase
           greatest_decrease := final.greatest_decrease }

/-- The sequence of `(month, change)` pairs produced by the loop for the rows
after the first, given the previous row's parsed amount `lp`: row `(m, a)`
yields `(m, a - lp)` (src/PyBank/main.py lines 133-134). -/
def labeledChanges : ℚ → List (String × ℚ) → List (String × ℚ)
  | _, [] => []
  | lp, (m, a) :: rest => (m, a - lp) :: labeledChanges a rest

end PyBank

namespace PyPoll

/-- The analysis dict built by `analyze_election_data` (src/PyPoll/main.py,
lines 123-131): `total_votes`, `candidate_votes` as a list of
(name, votes, percentage) triples, and the `winner` name. -/
structure ElectionAnalysis where
  total_votes : ℕ
  candidate_votes : List (String × ℕ × ℚ)
  winner : String
deriving DecidableEq, Repr

/-- `candidate_votes[candidate] += 1` on a `defaultdict(int)`
(src/PyPoll/main.py line 115): increment the candidate's entry, inserting
a fresh entry at the end on first appearance (Python dicts preserve
insertion order). -/
def bump (acc : List (String × ℕ)) (c : String) : List (String × ℕ) :=
  match acc with
  | [] => [(c, 1)]
  | (k, v) :: rest => if k = c then (k, v + 1) :: rest else (k, v) :: bump rest c

/-- The vote-counting loop `for row in election_data: ...` of
`analyze_election_data` (src/PyPoll/main.py lines 113-115), applied to the
candidate names of the rows. -/
def candidateTally (names : List String) : List (String × ℕ) :=
  List.foldl bump [] names

/-- `analyze_election_data` (src/PyPoll/main.py lines 85-133).  The winner
loop (lines 118-120) is a fold of `argmaxStep` over the tally; `winner[0]`
on line 130 raises `TypeError` when `winner` is still `None` (empty
dataset), modelled as `none`. -/
def analyze_election_data (election_data : List (String × String × String)) :
    Option ElectionAnalysis :=
  let total_votes := election_data.length
  let candidate_votes := candidateTally (election_data.map (fun row => row.2.2))
  match List.foldl PyBank.argmaxStep none candidate_votes with
  | none => none
  | some w =>
      some { total_votes := total_votes
             candidate_votes := candidate_votes.map
               (fun p => (p.1, p.2, (p.2 * 100 : ℚ) / (total_votes : ℚ)))
             winner := w.1 }

end PyPoll

/-- Round-half-even to an integer: the rounding used by Python `round` on a
`Decimal` (default `ROUND_HALF_EVEN` context) and by `f"{x:2.3f}"`
float formatting. -/
def roundHalfEven (q : ℚ) : ℤ :=
  if q - ⌊q⌋ < 1/2 then ⌊q⌋
  else if 1/2 < q - ⌊q⌋ then ⌊q⌋ + 1
  else if ⌊q⌋ % 2 = 0 then ⌊q⌋ else ⌊q⌋ + 1

/-- Zero-pad a numeral string on the left to width `w`. -/
def padZeros (w : ℕ) (s : String) : String :=
  String.mk (List.replicate (w - s.length) '0') ++ s

/-- Render `q` rounded half-even to `digits` decimal places, the way Python
renders `round(Decimal, digits)` (PyBank) and `f"{x:2.3f}"` (PyPoll; the
minimum field width 2 is always exceeded by the rendered digits). -/
def formatFixedQ (digits : ℕ) (q : ℚ) : String :=
  let scale : ℕ := 10 ^ digits
  let n := roundHalfEven (q * (scale : ℚ))
  let sign := if n < 0 then "-" else ""
  if digits = 0 then sign ++ toString (n.natAbs / scale)
  else sign ++ toString (n.natAbs / scale) ++ "." ++ padZeros digits (toString (n.natAbs % scale))

namespace PyBank

/-- `format_analysis_report` of PyBank (src/PyBank/main.py lines 163-222):
unpacks `greatest_increase` and `greatest_decrease` (lines 182-183), which
raises `TypeError` when either is `None` (modelled as `none`); otherwise
joins the heading lines and the five `"name: value"` field lines with
newlines. -/
def format_analysis_report (analysis : BudgetAnalysis) : Option String :=
  match analysis.greatest_increase, analysis.greatest_decrease with
  | some gi, some gd =>
      let total_months := toString analysis.total_months
      let total := "$" ++ formatFixedQ 0 analysis.total
      let average_change := "$" ++ formatFixedQ 2 analysis.average_change
      let increase := gi.1 ++ " ($" ++ formatFixedQ 0 gi.2 ++ ")"
      let decrease := gd.1 ++ " ($" ++ formatFixedQ 0 gd.2 ++ ")"
      some (String.intercalate "\n"
        ["Financial Analysis",
         String.mk (List.replicate 28 '-'),
         "Total Months: " ++ total_months,
         "Total: " ++ total,
         "Average Change: " ++ average_change,
         "Greatest Increase in Profits: " ++ increase,
         "Greatest Decrease in Profits: " ++ decrease])
  | _, _ => none

end PyBank

namespace PyPoll

/-- One candidate line of the election report:
`f"{name}: {percentage:2.3f}% ({votes})"` (src/PyPoll/main.py line 157). -/
def candidateLine (p : String × ℕ × ℚ) : String :=
  p.1 ++ ": " ++ formatFixedQ 3 p.2.2 ++ "% (" ++ toString p.2.1 ++ ")"

/-- `format_analysis_report` of PyPoll (src/PyPoll/main.py lines 136-177):
assembles `[title, horizontal_bar, total_votes, horizontal_bar,
*candidates, horizontal_bar, winner, horizontal_bar]` and joins them with
newlines. -/
def format_analysis_report (analysis : ElectionAnalysis) : String :=
  let horizontal_bar := String.mk (List.replicate 25 '-')
  let title := "Election Results"
  let total_votes := "Total Votes: " ++ toString analysis.total_votes
  let candidates := analysis.candidate_votes.map candidateLine
  let winner := "Winner: " ++ analysis.winner
  String.intercalate "\n"
    ([title, horizontal_bar, total_votes, horizontal_bar] ++
      candidates ++ [horizontal_bar, winner, horizontal_bar])

end PyPoll

example : formatFixedQ 3 100 = "100.000" := by
  norm_num [formatFixedQ, roundHalfEven, padZeros]; decide
example : formatFixedQ 3 (200/3) = "66.667" := by
  norm_num [formatFixedQ, roundHalfEven, padZeros]; decide
example : formatFixedQ 3 (100/3) = "33.333" := by
  norm_num [formatFixedQ, roundHalfEven, padZeros]; decide
example : formatFixedQ 2 100 = "100.00" := by
  norm_num [formatFixedQ, roundHalfEven, padZeros]; decide
example : formatFixedQ 0 3700 = "3700" := by
  norm_num [formatFixedQ, roundHalfEven, padZeros]; decide
example : formatFixedQ 0 (-300) = "-300" := by
  norm_num [formatFixedQ, roundHalfEven, padZeros]; decide

example : PyPoll.format_analysis_report
    { total_votes := 1, candidate_votes := [("X", 1, 100)], winner := "X" } =
    "Election Results\n-------------------------\nTotal Votes: 1\n-------------------------\nX: 100.000% (1)\n-------------------------\nWinner: X\n-------------------------" := by
  norm_num [PyPoll.format_analysis_report, PyPoll.candidateLine, formatFixedQ,
    roundHalfEven, padZeros]; decide

example : PyBank.analyze_budget_data [("Jan", 1000), ("Feb", 1500), ("Mar", 1200)] =
    some { total_months := 3, total := 3700, average_change := 100,
           greatest_increase := some ("Feb", 500),
           greatest_decrease := some ("Mar", -300) } := by
  norm_num [PyBank.analyze_budget_data, PyBank.budgetStep, PyBank.initBudgetState,
    PyBank.argmaxStep, PyBank.argminStep]

example : PyBank.analyze_budget_data [] =
    some { total_months := 0, total := 0, average_change := 0,
           greatest_increase := none, greatest_decrease := none } := by
  norm_num [PyBank.analyze_budget_data, PyBank.initBudgetState]

example : PyPoll.analyze_election_data
    [("1", "A", "X"), ("2", "A", "Y"), ("3", "B", "X")] =
    some { total_votes := 3,
           candidate_votes := [("X", 2, 200/3), ("Y", 1, 100/3)],
           winner := "X" } := by
  norm_num [PyPoll.analyze_election_data, PyPoll.candidateTally, PyPoll.bump,
    PyBank.argmaxStep]

/-! ### Generic characterization of the strict-improvement argmax/argmin folds -/

/-- Folding `argmaxStep` from `some g`: either no element strictly beats `g`
and the accumulator survives, or the list splits around the final answer
`p`, with everything before `p` strictly below it and everything after at
most it. -/
theorem argmaxFold_spec {α β : Type} [LinearOrder β] (t : List (α × β)) (g : α × β) :
    (List.foldl PyBank.argmaxStep (some g) t = some g ∧ ∀ q ∈ t, q.2 ≤ g.2) ∨
    (∃ t₁ p t₂, t = t₁ ++ p :: t₂ ∧ List.foldl PyBank.argmaxStep (some g) t = some p ∧
      g.2 < p.2 ∧ (∀ q ∈ t₁, q.2 < p.2) ∧ (∀ q ∈ t₂, q.2 ≤ p.2)) := by
  induction t generalizing g with
  | nil => exact Or.inl ⟨rfl, by simp⟩
  | cons hd tl ih =>
    by_cases hlt : g.2 < hd.2
    · have hstep : PyBank.argmaxStep (some g) hd = some hd := by
        simp [PyBank.argmaxStep, hlt]
      rcases ih hd with ⟨heq, hall⟩ | ⟨t₁, p, t₂, ht, heq, hgp, h₁, h₂⟩
      · refine Or.inr ⟨[], hd, tl, by simp, ?_, hlt, by simp, hall⟩
        simpa [List.foldl_cons, hstep] using heq
      · refine Or.inr ⟨hd :: t₁, p, t₂, by simp [ht], ?_, lt_trans hlt hgp, ?_, h₂⟩
        · simpa [List.foldl_cons, hstep] using heq
        · intro q hq
          rcases List.mem_cons.mp hq with h | h
          · exact h ▸ hgp
          · exact h₁ q h
    · have hstep : PyBank.argmaxStep (some g) hd = some g := by
        simp [PyBank.argmaxStep, hlt]
      push_neg at hlt
      rcases ih g with ⟨heq, hall⟩ | ⟨t₁, p, t₂, ht, heq, hgp, h₁, h₂⟩
      · refine Or.inl ⟨?_, ?_⟩
        · simpa [List.foldl_cons, hstep] using heq
        · intro q hq
          rcases List.mem_cons.mp hq with h | h
          · exact h ▸ hlt
          · exact hall q h
      · refine Or.inr ⟨hd :: t₁, p, t₂, by simp [ht], ?_, hgp, ?_, h₂⟩
        · simpa [List.foldl_cons, hstep] using heq
        · intro q hq
          rcases List.mem_cons.mp hq with h | h
          · exact h ▸ lt_of_le_of_lt hlt hgp
          · exact h₁ q h

/-- Folding `argmaxStep` from `none` over a non-empty list yields the
first-seen strict maximum: everything before the answer is strictly below
it, everything after is at most it. -/
theorem argmaxFold_first_max {α β : Type} [LinearOrder β] (t : List (α × β)) (h : t ≠ []) :
    ∃ t₁ p t₂, t = t₁ ++ p :: t₂ ∧ List.foldl PyBank.argmaxStep none t = some p ∧
      (∀ q ∈ t₁, q.2 < p.2) ∧ (∀ q ∈ t₂, q.2 ≤ p.2) := by
  match t, h with
  | hd :: tl, _ =>
    have hfold : List.foldl PyBank.argmaxStep (none : Option (α × β)) (hd :: tl)
        = List.foldl PyBank.argmaxStep (some hd) tl := rfl
    rcases argmaxFold_spec tl hd with ⟨heq, hall⟩ | ⟨t₁, p, t₂, ht, heq, hgp, h₁, h₂⟩
    · exact ⟨[], hd, tl, by simp, by rw [hfold, heq], by simp, hall⟩
    · refine ⟨hd :: t₁, p, t₂, by simp [ht], by rw [hfold, heq], ?_, h₂⟩
      intro q hq
      rcases List.mem_cons.mp hq with hh | hh
      · exact hh ▸ hgp
      · exact h₁ q hh

/-- Mirror of `argmaxFold_spec` for `argminStep`. -/
theorem argminFold_spec {α β : Type} [LinearOrder β] (t : List (α × β)) (g : α × β) :
    (List.foldl PyBank.argminStep (some g) t = some g ∧ ∀ q ∈ t, g.2 ≤ q.2) ∨
    (∃ t₁ p t₂, t = t₁ ++ p :: t₂ ∧ List.foldl PyBank.argminStep (some g) t = some p ∧
      p.2 < g.2 ∧ (∀ q ∈ t₁, p.2 < q.2) ∧ (∀ q ∈ t₂, p.2 ≤ q.2)) := by
  induction t generalizing g with
  | nil => exact Or.inl ⟨rfl, by simp⟩
  | cons hd tl ih =>
    by_cases hlt : hd.2 < g.2
    · have hstep : PyBank.argminStep (some g) hd = some hd := by
        simp [PyBank.argminStep, hlt]
      rcases ih hd with ⟨heq, hall⟩ | ⟨t₁, p, t₂, ht, heq, hgp, h₁, h₂⟩
      · refine Or.inr ⟨[], hd, tl, by simp, ?_, hlt, by simp, hall⟩
        simpa [List.foldl_cons, hstep] using heq
      · refine Or.inr ⟨hd :: t₁, p, t₂, by simp [ht], ?_, lt_trans hgp hlt, ?_, h₂⟩
        · simpa [List.foldl_cons, hstep] using heq
        · intro q hq
          rcases List.mem_cons.mp hq with h | h
          · exact h ▸ hgp
          · exact h₁ q h
    · have hstep : PyBank.argminStep (some g) hd = some g := by
        simp [PyBank.argminStep, hlt]
      push_neg at hlt
      rcases ih g with ⟨heq, hall⟩ | ⟨t₁, p, t₂, ht, heq, hgp, h₁, h₂⟩
      · refine Or.inl ⟨?_, ?_⟩
        · simpa [List.foldl_cons, hstep] using heq
        · intro q hq
          rcases List.mem_cons.mp hq with h | h
          · exact h ▸ hlt
          · exact hall q h
      · refine Or.inr ⟨hd :: t₁, p, t₂, by simp [ht], ?_, hgp, ?_, h₂⟩
        · simpa [List.foldl_cons, hstep] using heq
        · intro q hq
          rcases List.mem_cons.mp hq with h | h
          · exact h ▸ lt_of_lt_of_le hgp hlt
          · exact h₁ q h

/-- Folding `argminStep` from `none` over a non-empty list yields the
first-seen strict minimum. -/
theorem argminFold_first_min {α β : Type} [LinearOrder β] (t : List (α × β)) (h : t ≠ []) :
    ∃ t₁ p t₂, t = t₁ ++ p :: t₂ ∧ List.foldl PyBank.argminStep none t = some p ∧
      (∀ q ∈ t₁, p.2 < q.2) ∧ (∀ q ∈ t₂, p.2 ≤ q.2) := by
  match t, h with
  | hd :: tl, _ =>
    have hfold : List.foldl PyBank.argminStep (none : Option (α × β)) (hd :: tl)
        = List.foldl PyBank.argminStep (some hd) tl := rfl
    rcases argminFold_spec tl hd with ⟨heq, hall⟩ | ⟨t₁, p, t₂, ht, heq, hgp, h₁, h₂⟩
    · exact ⟨[], hd, tl, by simp, by rw [hfold, heq], by simp, hall⟩
    · refine ⟨hd :: t₁, p, t₂, by simp [ht], by rw [hfold, heq], ?_, h₂⟩
      intro q hq
      rcases List.mem_cons.mp hq with hh | hh
      · exact hh ▸ hgp
      · exact h₁ q hh

/-! ### Budget loop invariants -/

/-- Every iteration of the PyBank loop adds the row's parsed amount to
`total_profit`, whatever the rest of the state. -/
theorem budget_total_profit (data : List (String × ℚ)) :
    ∀ s : PyBank.BudgetState,
      (List.foldl PyBank.budgetStep s data).total_profit
        = s.total_profit + (data.map Prod.snd).sum := by
  induction data with
  | nil => intro s; simp
  | cons hd tl ih =>
    intro s
    rw [List.foldl_cons, ih]
    have hhd : (PyBank.budgetStep s hd).total_profit = s.total_profit + hd.2 := by
      rcases s with ⟨tp, tc, lp, ch, gi, gd⟩
      rcases lp with _ | lp
      · rcases ch with _ | c <;> simp [PyBank.budgetStep]
      · simp [PyBank.budgetStep]
    rw [hhd]
    simp [add_assoc]

/-- After the first row has set `last_profit`, the rest of the PyBank loop
computes: `total_change` plus the sum of the labeled changes, and each
extremum as the corresponding strict-improvement fold over the labeled
changes. -/
theorem budget_foldl_spec (rest : List (String × ℚ)) :
    ∀ (s : PyBank.BudgetState) (lp : ℚ), s.last_profit = some lp →
      (List.foldl PyBank.budgetStep s rest).total_change
          = s.total_change + ((PyBank.labeledChanges lp rest).map Prod.snd).sum ∧
      (List.foldl PyBank.budgetStep s rest).greatest_increase
          = List.foldl PyBank.argmaxStep s.greatest_increase (PyBank.labeledChanges lp rest) ∧
      (List.foldl PyBank.budgetStep s rest).greatest_decrease
          = List.foldl PyBank.argminStep s.greatest_decrease (PyBank.labeledChanges lp rest) := by
  induction rest with
  | nil =>
    intro s lp h
    simp [PyBank.labeledChanges]
  | cons hd tl ih =>
    intro s lp h
    obtain ⟨m, a⟩ := hd
    have hstep : PyBank.budgetStep s (m, a) =
        { total_profit := s.total_profit + a
          total_change := s.total_change + (a - lp)
          last_profit := some a
          change := some (a - lp)
          greatest_increase := PyBank.argmaxStep s.greatest_increase (m, a - lp)
          greatest_decrease := PyBank.argminStep s.greatest_decrease (m, a - lp) } := by
      rcases s with ⟨tp, tc, lps, ch, gi, gd⟩
      simp only [PyBank.BudgetState.mk.injEq] at h ⊢
      cases h
      simp [PyBank.budgetStep]
    rw [List.foldl_cons, hstep]
    obtain ⟨h1, h2, h3⟩ := ih
      { total_profit := s.total_profit + a
        total_change := s.total_change + (a - lp)
        last_profit := some a
        change := some (a - lp)
        greatest_increase := PyBank.argmaxStep s.greatest_increase (m, a - lp)
        greatest_decrease := PyBank.argminStep s.greatest_decrease (m, a - lp) } a rfl
    refine ⟨?_, ?_, ?_⟩
    · rw [h1, PyBank.labeledChanges]
      simp [add_assoc]
    · rw [h2, PyBank.labeledChanges, List.foldl_cons]
    · rw [h3, PyBank.labeledChanges, List.foldl_cons]

/-- The per-row changes telescope: their sum is the last amount minus the
amount `lp` preceding them. -/
theorem labeledChanges_sum (rest : List (String × ℚ)) :
    ∀ lp : ℚ, ((PyBank.labeledChanges lp rest).map Prod.snd).sum
      = (rest.map Prod.snd).getLastD lp - lp := by
  induction rest with
  | nil => intro lp; simp [PyBank.labeledChanges]
  | cons hd tl ih =>
    intro lp
    obtain ⟨m, a⟩ := hd
    rw [PyBank.labeledChanges]
    simp only [List.map_cons, List.sum_cons, ih a, List.getLastD_cons]
    ring

/-! ### PyPoll tally invariants -/

theorem bump_ne_nil (acc : List (String × ℕ)) (c : String) : PyPoll.bump acc c ≠ [] := by
  match acc with
  | [] => simp [PyPoll.bump]
  | (k, v) :: rest => by_cases h : k = c <;> simp [PyPoll.bump, h]

theorem foldl_bump_ne_nil (names : List String) :
    ∀ acc : List (String × ℕ), acc ≠ [] → List.foldl PyPoll.bump acc names ≠ [] := by
  induction names with
  | nil => intro acc h; simpa
  | cons n ns ih => intro acc _; exact ih _ (bump_ne_nil acc n)

theorem candidateTally_ne_nil (names : List String) (h : names ≠ []) :
    PyPoll.candidateTally names ≠ [] := by
  match names, h with
  | n :: ns, _ =>
    show List.foldl PyPoll.bump (PyPoll.bump [] n) ns ≠ []
    exact foldl_bump_ne_nil ns (PyPoll.bump [] n) (bump_ne_nil [] n)

/-- `candidate_votes[candidate] += 1` adds exactly one to the total count. -/
theorem bump_sum (acc : List (String × ℕ)) (c : String) :
    ((PyPoll.bump acc c).map Prod.snd).sum = (acc.map Prod.snd).sum + 1 := by
  induction acc with
  | nil => simp [PyPoll.bump]
  | cons hd tl ih =>
    obtain ⟨k, v⟩ := hd
    by_cases h : k = c <;> simp [PyPoll.bump, h, ih] <;> omega

theorem foldl_bump_sum (names : List String) :
    ∀ acc : List (String × ℕ),
      ((List.foldl PyPoll.bump acc names).map Prod.snd).sum
        = (acc.map Prod.snd).sum + names.length := by
  induction names with
  | nil => intro acc; simp
  | cons n ns ih =>
    intro acc
    rw [List.foldl_cons, ih, bump_sum]
    simp [Nat.add_assoc, Nat.add_comm 1]

/-- One vote per row: the tally's counts sum to the number of ballots. -/
theorem candidateTally_sum (names : List String) :
    ((PyPoll.candidateTally names).map Prod.snd).sum = names.length := by
  simpa [PyPoll.candidateTally] using foldl_bump_sum names []

/-- On a non-empty dataset `analyze_election_data` succeeds, and its fields
are the row count, the percentage-decorated tally, and the name from the
winner fold. -/
theorem analyze_election_eq (data : List (String × String × String)) (hne : data ≠ []) :
    ∃ p, List.foldl PyBank.argmaxStep none
          (PyPoll.candidateTally (data.map (fun r => r.2.2))) = some p ∧
      PyPoll.analyze_election_data data =
        some { total_votes := data.length
               candidate_votes := (PyPoll.candidateTally (data.map (fun r => r.2.2))).map
                 (fun q => (q.1, q.2, (q.2 * 100 : ℚ) / (data.length : ℚ)))
               winner := p.1 } := by
  have hts : PyPoll.candidateTally (data.map (fun r => r.2.2)) ≠ [] := by
    apply candidateTally_ne_nil
    simpa using hne
  obtain ⟨t₁, p, t₂, ht, heq, h₁, h₂⟩ := argmaxFold_first_max _ hts
  exact ⟨p, heq, by simp [PyPoll.analyze_election_data, heq]⟩

/-- Unfolding `analyze_budget_data` on a dataset of at least two rows: it
succeeds, the total is the sum of the amounts, the average change is the
sum of the labeled changes over the number of changes, and the extrema are
the strict-improvement folds over the labeled changes. -/
theorem analyze_budget_cons (m₀ : String) (a₀ : ℚ) (rest : List (String × ℚ))
    (hne : rest ≠ []) :
    PyBank.analyze_budget_data ((m₀, a₀) :: rest) =
      some { total_months := rest.length + 1
             total := a₀ + (rest.map Prod.snd).sum
             average_change :=
               ((PyBank.labeledChanges a₀ rest).map Prod.snd).sum / (rest.length : ℚ)
             greatest_increase :=
               List.foldl PyBank.argmaxStep none (PyBank.labeledChanges a₀ rest)
             greatest_decrease :=
               List.foldl PyBank.argminStep none (PyBank.labeledChanges a₀ rest) } := by
  have hlen0 : rest.length ≠ 0 := by
    simpa [List.length_eq_zero] using hne
  have hfold : List.foldl PyBank.budgetStep PyBank.initBudgetState ((m₀, a₀) :: rest)
      = List.foldl PyBank.budgetStep
          { total_profit := 0 + a₀, total_change := 0, last_profit := some a₀,
            change := none, greatest_increase := none, greatest_decrease := none } rest := by
    rfl
  obtain ⟨h1, h2, h3⟩ := budget_foldl_spec rest
    { total_profit := 0 + a₀, total_change := 0, last_profit := some a₀,
      change := none, greatest_increase := none, greatest_decrease := none } a₀ rfl
  have htp := budget_total_profit rest
    { total_profit := 0 + a₀, total_change := 0, last_profit := some a₀,
      change := none, greatest_increase := none, greatest_decrease := none }
  simp only [PyBank.analyze_budget_data, List.length_cons]
  rw [if_neg (by push_cast; omega : ¬(((rest.length + 1 : ℕ) : ℤ) - 1 = 0))]
  rw [hfold, htp, h1, h2, h3]
  simp only [Option.some.injEq, PyBank.BudgetAnalysis.mk.injEq, zero_add,
    and_true, true_and]
  push_cast
  ring_nf

/-! ### Claim theorems: PyBank -/

/-- C2: in `analyze_budget_data`, for every dataset with at least 2 rows,
each row after the first contributes `change = amount - previous amount`
(the labeled changes) to the sum of changes (recovered here from
`average_change * (month_count - 1)`); the greatest increase is updated
only on strict greater-than and the greatest decrease only on strict
less-than, so each reported extremum is the earliest-seen one: every
labeled change before it is strictly beaten by it, every one after is
matched at best. -/
theorem claim_C2_changes_and_extrema (m₀ : String) (a₀ : ℚ)
    (rest : List (String × ℚ)) (hne : rest ≠ []) :
    ∃ a, PyBank.analyze_budget_data ((m₀, a₀) :: rest) = some a ∧
      a.average_change * (rest.length : ℚ)
        = ((PyBank.labeledChanges a₀ rest).map Prod.snd).sum ∧
      (∃ t₁ p t₂, PyBank.labeledChanges a₀ rest = t₁ ++ p :: t₂ ∧
        a.greatest_increase = some p ∧
        (∀ q ∈ t₁, q.2 < p.2) ∧ (∀ q ∈ t₂, q.2 ≤ p.2)) ∧
      (∃ t₁ p t₂, PyBank.labeledChanges a₀ rest = t₁ ++ p :: t₂ ∧
        a.greatest_decrease = some p ∧
        (∀ q ∈ t₁, p.2 < q.2) ∧ (∀ q ∈ t₂, p.2 ≤ q.2)) := by
  have hlc_ne : PyBank.labeledChanges a₀ rest ≠ [] := by
    match rest, hne with
    | (m, a) :: tl, _ => simp [PyBank.labeledChanges]
  refine ⟨_, analyze_budget_cons m₀ a₀ rest hne, ?_, ?_, ?_⟩
  · have hlen0 : (rest.length : ℚ) ≠ 0 := by
      have : rest.length ≠ 0 := by simpa [List.length_eq_zero] using hne
      exact_mod_cast this
    show ((PyBank.labeledChanges a₀ rest).map Prod.snd).sum / (rest.length : ℚ)
        * (rest.length : ℚ) = _
    field_simp
  · obtain ⟨t₁, q, t₂, ht, heq, h₁, h₂⟩ := argmaxFold_first_max _ hlc_ne
    exact ⟨t₁, q, t₂, ht, heq, h₁, h₂⟩
  · obtain ⟨t₁, q, t₂, ht, heq, h₁, h₂⟩ := argminFold_first_min _ hlc_ne
    exact ⟨t₁, q, t₂, ht, heq, h₁, h₂⟩

/-- C2 witness at the 3-row dataset `[("Jan",1000),("Feb",1500),("Mar",1200)]`. -/
theorem claim_C2_witness :
    ([("Feb", (1500 : ℚ)), ("Mar", 1200)] : List (String × ℚ)) ≠ [] ∧
    ∃ a, PyBank.analyze_budget_data [("Jan", 1000), ("Feb", 1500), ("Mar", 1200)] = some a ∧
      a.average_change * (([("Feb", (1500 : ℚ)), ("Mar", 1200)] : List (String × ℚ)).length : ℚ)
        = ((PyBank.labeledChanges 1000 [("Feb", 1500), ("Mar", 1200)]).map Prod.snd).sum ∧
      (∃ t₁ p t₂, PyBank.labeledChanges 1000 [("Feb", 1500), ("Mar", 1200)] = t₁ ++ p :: t₂ ∧
        a.greatest_increase = some p ∧
        (∀ q ∈ t₁, q.2 < p.2) ∧ (∀ q ∈ t₂, q.2 ≤ p.2)) ∧
      (∃ t₁ p t₂, PyBank.labeledChanges 1000 [("Feb", 1500), ("Mar", 1200)] = t₁ ++ p :: t₂ ∧
        a.greatest_decrease = some p ∧
        (∀ q ∈ t₁, p.2 < q.2) ∧ (∀ q ∈ t₂, p.2 ≤ q.2)) :=
  ⟨by simp, claim_C2_changes_and_extrema "Jan" 1000 [("Feb", 1500), ("Mar", 1200)] (by simp)⟩

/-- C3: the concrete 3-row budget scenario: total 3700, changes
[500, -300], average change 100, greatest increase ("Feb", 500), greatest
decrease ("Mar", -300). -/
theorem claim_C3_budget_scenario :
    PyBank.analyze_budget_data [("Jan", 1000), ("Feb", 1500), ("Mar", 1200)] =
      some { total_months := 3, total := 3700, average_change := 100,
             greatest_increase := some ("Feb", 500),
             greatest_decrease := some ("Mar", -300) } ∧
    PyBank.labeledChanges 1000 [("Feb", 1500), ("Mar", 1200)]
      = [("Feb", 500), ("Mar", -300)] := by
  constructor
  · norm_num [PyBank.analyze_budget_data, PyBank.budgetStep, PyBank.initBudgetState,
      PyBank.argmaxStep, PyBank.argminStep]
  · norm_num [PyBank.labeledChanges]

/-- C4 (counterexample to the claim as stated): on the empty dataset
(`month_count = 0 ≤ 1`) `analyze_budget_data` does not raise — the divisor
`total_changes` is `-1`, not `0`. -/
theorem claim_C4_counterexample :
    PyBank.analyze_budget_data [] ≠ none := by
  norm_num [PyBank.analyze_budget_data]
  exact Option.some_ne_none _

/-- C4 (amended): `average_change` raises division-by-zero exactly for the
one-row dataset; for zero rows the division is by `-1` and returns `0`. -/
theorem claim_C4_amended (data : List (String × ℚ)) (h : data.length ≤ 1) :
    (data.length = 1 → PyBank.analyze_budget_data data = none) ∧
    (data.length = 0 →
      ∃ a, PyBank.analyze_budget_data data = some a ∧ a.average_change = 0) := by
  constructor
  · intro h1
    simp only [PyBank.analyze_budget_data, h1]
    norm_num
  · intro h0
    have : data = [] := List.length_eq_zero.mp h0
    subst this
    refine ⟨{ total_months := 0, total := 0, average_change := 0,
              greatest_increase := none, greatest_decrease := none }, ?_, rfl⟩
    norm_num [PyBank.analyze_budget_data, PyBank.initBudgetState]

/-- C4 witness at the one-row dataset `[("Jan", 1000)]`. -/
theorem claim_C4_witness :
    ([("Jan", (1000 : ℚ))] : List (String × ℚ)).length ≤ 1 ∧
    (([("Jan", (1000 : ℚ))] : List (String × ℚ)).length = 1 →
      PyBank.analyze_budget_data [("Jan", 1000)] = none) ∧
    (([("Jan", (1000 : ℚ))] : List (String × ℚ)).length = 0 →
      ∃ a, PyBank.analyze_budget_data [("Jan", 1000)] = some a ∧ a.average_change = 0) :=
  ⟨by simp, (claim_C4_amended [("Jan", 1000)] (by simp)).1, (claim_C4_amended [("Jan", 1000)] (by simp)).2⟩

/-- C5: whenever `analyze_budget_data` returns, the returned total is the
exact sum of the parsed amounts, and it is invariant under any permutation
of the rows. -/
theorem claim_C5_total_exact_sum (data data' : List (String × ℚ))
    (a a' : PyBank.BudgetAnalysis)
    (h : PyBank.analyze_budget_data data = some a)
    (hp : data.Perm data')
    (h' : PyBank.analyze_budget_data data' = some a') :
    a.total = (data.map Prod.snd).sum ∧ a'.total = a.total := by
  have key : ∀ (d : List (String × ℚ)) (b : PyBank.BudgetAnalysis),
      PyBank.analyze_budget_data d = some b → b.total = (d.map Prod.snd).sum := by
    intro d b hb
    have hb2 : (if ((d.length : ℤ) - 1) = 0 then (none : Option PyBank.BudgetAnalysis)
        else some { total_months := d.length
                    total := (List.foldl PyBank.budgetStep PyBank.initBudgetState d).total_profit
                    average_change :=
                      (List.foldl PyBank.budgetStep PyBank.initBudgetState d).total_change
                        / (((d.length : ℤ) - 1 : ℤ) : ℚ)
                    greatest_increase :=
                      (List.foldl PyBank.budgetStep PyBank.initBudgetState d).greatest_increase
                    greatest_decrease :=
                      (List.foldl PyBank.budgetStep PyBank.initBudgetState d).greatest_decrease })
        = some b := hb
    split at hb2
    · exact absurd hb2 (by simp)
    · obtain rfl := Option.some.inj hb2
      show (List.foldl PyBank.budgetStep PyBank.initBudgetState d).total_profit = _
      rw [budget_total_profit]
      simp [PyBank.initBudgetState]
  refine ⟨key data a h, ?_⟩
  rw [key data' a' h', key data a h]
  exact ((hp.map Prod.snd).sum_eq).symm

/-- C5 witness: the 2-row dataset and its swap. -/
theorem claim_C5_witness :
    PyBank.analyze_budget_data [("A", 1), ("B", 2)] =
      some { total_months := 2, total := 3, average_change := 1,
             greatest_increase := some ("B", 1), greatest_decrease := some ("B", 1) } ∧
    ([("A", (1 : ℚ)), ("B", 2)] : List (String × ℚ)).Perm [("B", 2), ("A", 1)] ∧
    PyBank.analyze_budget_data [("B", 2), ("A", 1)] =
      some { total_months := 2, total := 3, average_change := -1,
             greatest_increase := some ("A", -1), greatest_decrease := some ("A", -1) } ∧
    ({ total_months := 2, total := 3, average_change := 1,
       greatest_increase := some ("B", 1),
       greatest_decrease := some ("B", 1) } : PyBank.BudgetAnalysis).total
        = (([("A", (1 : ℚ)), ("B", 2)] : List (String × ℚ)).map Prod.snd).sum ∧
    ({ total_months := 2, total := 3, average_change := -1,
       greatest_increase := some ("A", -1),
       greatest_decrease := some ("A", -1) } : PyBank.BudgetAnalysis).total
        = ({ total_months := 2, total := 3, average_change := 1,
             greatest_increase := some ("B", 1),
             greatest_decrease := some ("B", 1) } : PyBank.BudgetAnalysis).total := by
  have h1 : PyBank.analyze_budget_data [("A", 1), ("B", 2)] =
      some { total_months := 2, total := 3, average_change := 1,
             greatest_increase := some ("B", 1), greatest_decrease := some ("B", 1) } := by
    norm_num [PyBank.analyze_budget_data, PyBank.budgetStep, PyBank.initBudgetState,
      PyBank.argmaxStep, PyBank.argminStep]
  have h2 : PyBank.analyze_budget_data [("B", 2), ("A", 1)] =
      some { total_months := 2, total := 3, average_change := -1,
             greatest_increase := some ("A", -1), greatest_decrease := some ("A", -1) } := by
    norm_num [PyBank.analyze_budget_data, PyBank.budgetStep, PyBank.initBudgetState,
      PyBank.argmaxStep, PyBank.argminStep]
  have hperm : ([("A", (1 : ℚ)), ("B", 2)] : List (String × ℚ)).Perm [("B", 2), ("A", 1)] :=
    List.Perm.swap ("B", 2) ("A", 1) []
  obtain ⟨k1, k2⟩ := claim_C5_total_exact_sum _ _ _ _ h1 hperm h2
  exact ⟨h1, hperm, h2, k1, k2⟩

/-- C9: the empty budget dataset does not raise in the analyzer: the divisor
is `-1`, `average_change` is `0`, the summary has zero months, zero total
and `None` extrema — and the formatter then fails unpacking the `None`
extremal entries. -/
theorem claim_C9_empty_budget :
    PyBank.analyze_budget_data [] =
      some { total_months := 0, total := 0, average_change := 0,
             greatest_increase := none, greatest_decrease := none } ∧
    (PyBank.analyze_budget_data []).bind PyBank.format_analysis_report = none := by
  have h : PyBank.analyze_budget_data [] =
      some { total_months := 0, total := 0, average_change := 0,
             greatest_increase := none, greatest_decrease := none } := by
    norm_num [PyBank.analyze_budget_data, PyBank.initBudgetState]
  refine ⟨h, ?_⟩
  rw [h]
  rfl

/-- C10: the per-row changes telescope, so for n ≥ 2 rows the average change
is exactly (last amount - first amount) / (n - 1), independent of the
intermediate amounts. -/
theorem claim_C10_telescoping (m₀ : String) (a₀ : ℚ)
    (rest : List (String × ℚ)) (hne : rest ≠ []) :
    ∃ a, PyBank.analyze_budget_data ((m₀, a₀) :: rest) = some a ∧
      a.average_change
        = (((((m₀, a₀) :: rest).map Prod.snd).getLastD 0) - a₀)
            / (((((m₀, a₀) :: rest)).length : ℚ) - 1) := by
  refine ⟨_, analyze_budget_cons m₀ a₀ rest hne, ?_⟩
  show ((PyBank.labeledChanges a₀ rest).map Prod.snd).sum / (rest.length : ℚ) = _
  rw [labeledChanges_sum]
  simp only [List.map_cons, List.getLastD_cons, List.length_cons]
  push_cast
  ring_nf

/-- C10 witness at the 3-row dataset. -/
theorem claim_C10_witness :
    ([("Feb", (1500 : ℚ)), ("Mar", 1200)] : List (String × ℚ)) ≠ [] ∧
    ∃ a, PyBank.analyze_budget_data [("Jan", 1000), ("Feb", 1500), ("Mar", 1200)] = some a ∧
      a.average_change
        = ((([("Jan", (1000 : ℚ)), ("Feb", 1500), ("Mar", 1200)] : List (String × ℚ)).map
            Prod.snd).getLastD 0 - 1000)
            / ((([("Jan", (1000 : ℚ)), ("Feb", 1500), ("Mar", 1200)] : List (String × ℚ)).length : ℚ) - 1) :=
  ⟨by simp, claim_C10_telescoping "Jan" 1000 [("Feb", 1500), ("Mar", 1200)] (by simp)⟩

/-! ### Claim theorems: PyPoll -/

/-- C1: for every non-empty election dataset the analyzer succeeds, and its
winner splits the first-appearance-ordered tally so that every candidate
seen before the winner has strictly fewer votes and every candidate seen
after has at most as many: the winner holds the maximum vote count, never
fewer than any other candidate, and is the first-seen candidate among
those sharing the maximum. -/
theorem claim_C1_winner_first_max (data : List (String × String × String))
    (hne : data ≠ []) :
    ∃ a v t₁ t₂, PyPoll.analyze_election_data data = some a ∧
      PyPoll.candidateTally (data.map (fun r => r.2.2)) = t₁ ++ (a.winner, v) :: t₂ ∧
      (∀ q ∈ t₁, q.2 < v) ∧ (∀ q ∈ t₂, q.2 ≤ v) := by
  obtain ⟨p, hfold, heq⟩ := analyze_election_eq data hne
  obtain ⟨t₁, p', t₂, ht, heq', h₁, h₂⟩ :=
    argmaxFold_first_max (PyPoll.candidateTally (data.map (fun r => r.2.2)))
      (candidateTally_ne_nil _ (by simpa using hne))
  have hp : p = p' := Option.some.inj (hfold.symm.trans heq')
  subst hp
  refine ⟨_, p.2, t₁, t₂, heq, ?_, h₁, h₂⟩
  show PyPoll.candidateTally (data.map (fun r => r.2.2)) = t₁ ++ (p.1, p.2) :: t₂
  simpa using ht

/-- C1 witness at the 3-row dataset of the spec's election scenario. -/
theorem claim_C1_witness :
    ([("1", "A", "X"), ("2", "A", "Y"), ("3", "B", "X")] :
        List (String × String × String)) ≠ [] ∧
    ∃ a v t₁ t₂,
      PyPoll.analyze_election_data [("1", "A", "X"), ("2", "A", "Y"), ("3", "B", "X")] = some a ∧
      PyPoll.candidateTally (([("1", "A", "X"), ("2", "A", "Y"), ("3", "B", "X")] :
          List (String × String × String)).map (fun r => r.2.2)) = t₁ ++ (a.winner, v) :: t₂ ∧
      (∀ q ∈ t₁, q.2 < v) ∧ (∀ q ∈ t₂, q.2 ≤ v) :=
  ⟨by simp, claim_C1_winner_first_max [("1", "A", "X"), ("2", "A", "Y"), ("3", "B", "X")] (by simp)⟩

/-- C6: for every non-empty election dataset the analyzer succeeds,
`total_votes` is the number of rows, the per-candidate vote counts sum to
`total_votes`, and the percentages `votes * 100 / total_votes` sum to 100
(exactly, in the rational model of float arithmetic). -/
theorem claim_C6_vote_totals (data : List (String × String × String))
    (hne : data ≠ []) :
    ∃ a, PyPoll.analyze_election_data data = some a ∧
      a.total_votes = data.length ∧
      (a.candidate_votes.map (fun q => q.2.1)).sum = a.total_votes ∧
      (a.candidate_votes.map (fun q => q.2.2)).sum = 100 := by
  obtain ⟨p, hfold, heq⟩ := analyze_election_eq data hne
  have hlen : (data.length : ℚ) ≠ 0 := by
    have h0 : data.length ≠ 0 := by simpa [List.length_eq_zero] using hne
    exact_mod_cast h0
  refine ⟨_, heq, rfl, ?_, ?_⟩
  · show (((PyPoll.candidateTally (data.map (fun r => r.2.2))).map
        (fun q => (q.1, q.2, (q.2 * 100 : ℚ) / (data.length : ℚ)))).map
          (fun q => q.2.1)).sum = data.length
    rw [List.map_map]
    show ((PyPoll.candidateTally (data.map (fun r => r.2.2))).map Prod.snd).sum = data.length
    rw [candidateTally_sum]
    simp
  · show (((PyPoll.candidateTally (data.map (fun r => r.2.2))).map
        (fun q => (q.1, q.2, (q.2 * 100 : ℚ) / (data.length : ℚ)))).map
          (fun q => q.2.2)).sum = 100
    rw [List.map_map]
    show ((PyPoll.candidateTally (data.map (fun r => r.2.2))).map
        (fun q => ((q.2 : ℚ) * 100) / (data.length : ℚ))).sum = 100
    have hsplit : (fun q : String × ℕ => ((q.2 : ℚ) * 100) / (data.length : ℚ))
        = fun q : String × ℕ => (q.2 : ℚ) * (100 / (data.length : ℚ)) := by
      funext q
      rw [mul_div_assoc]
    rw [hsplit, List.sum_map_mul_right]
    have hcast : ((PyPoll.candidateTally (data.map (fun r => r.2.2))).map
        (fun q : String × ℕ => (q.2 : ℚ))).sum = (data.length : ℚ) := by
      rw [show (fun q : String × ℕ => (q.2 : ℚ))
            = (fun n : ℕ => (n : ℚ)) ∘ Prod.snd from rfl]
      rw [← List.map_map, ← Nat.cast_list_sum, candidateTally_sum]
      simp
    rw [hcast]
    field_simp

/-- C6 witness at the 3-row dataset of the spec's election scenario. -/
theorem claim_C6_witness :
    ([("1", "A", "X"), ("2", "A", "Y"), ("3", "B", "X")] :
        List (String × String × String)) ≠ [] ∧
    ∃ a, PyPoll.analyze_election_data [("1", "A", "X"), ("2", "A", "Y"), ("3", "B", "X")] = some a ∧
      a.total_votes = ([("1", "A", "X"), ("2", "A", "Y"), ("3", "B", "X")] :
          List (String × String × String)).length ∧
      (a.candidate_votes.map (fun q => q.2.1)).sum = a.total_votes ∧
      (a.candidate_votes.map (fun q => q.2.2)).sum = 100 :=
  ⟨by simp, claim_C6_vote_totals [("1", "A", "X"), ("2", "A", "Y"), ("3", "B", "X")] (by simp)⟩

/-- C7 (counterexample to the claim as stated): on a one-candidate summary
the election formatter's output is not the claimed sequence
title, rule, total votes, candidate line, rule, winner, rule — the code
inserts an additional horizontal rule between the total-votes line and the
candidate lines (src/PyPoll/main.py lines 163-172). -/
theorem claim_C7_counterexample :
    PyPoll.format_analysis_report
        { total_votes := 1, candidate_votes := [("X", 1, 100)], winner := "X" }
      ≠ String.intercalate "\n"
        ["Election Results", "-------------------------", "Total Votes: 1",
         "X: 100.000% (1)", "-------------------------", "Winner: X",
         "-------------------------"] := by
  norm_num [PyPoll.format_analysis_report, PyPoll.candidateLine, formatFixedQ,
    roundHalfEven, padZeros]
  decide

/-- C7 (amended): the election formatter produces exactly the ordered lines:
title, horizontal rule, total-votes line, horizontal rule, one line
`"<name>: <percentage to 3 decimals>% (<votes>)"` per candidate in
candidate order, a rule, the winner line, and a trailing rule — with no
other lines. -/
theorem claim_C7_amended_report_lines (a : PyPoll.ElectionAnalysis) :
    PyPoll.format_analysis_report a = String.intercalate "\n"
      (["Election Results",
        "-------------------------",
        "Total Votes: " ++ toString a.total_votes,
        "-------------------------"] ++
       a.candidate_votes.map
         (fun p => p.1 ++ ": " ++ formatFixedQ 3 p.2.2 ++ "% (" ++ toString p.2.1 ++ ")") ++
       ["-------------------------",
        "Winner: " ++ a.winner,
        "-------------------------"]) := by
  have hbar : String.mk (List.replicate 25 '-') = "-------------------------" := by decide
  simp [PyPoll.format_analysis_report, PyPoll.candidateLine, hbar]
  rfl

/-- C8: both formatters are deterministic functions of the summary record:
equal summaries yield byte-identical reports (they are modelled as pure
Lean functions, so they have no side effects on the summary or any other
state). -/
theorem claim_C8_formatters_deterministic
    (a₁ a₂ : PyBank.BudgetAnalysis) (e₁ e₂ : PyPoll.ElectionAnalysis)
    (ha : a₁ = a₂) (he : e₁ = e₂) :
    PyBank.format_analysis_report a₁ = PyBank.format_analysis_report a₂ ∧
    PyPoll.format_analysis_report e₁ = PyPoll.format_analysis_report e₂ := by
  subst ha
  subst he
  exact ⟨rfl, rfl⟩

/-- C8 witness at concrete summaries. -/
theorem claim_C8_witness :
    ({ total_months := 3, total := 3700, average_change := 100,
       greatest_increase := some ("Feb", 500),
       greatest_decrease := some ("Mar", -300) } : PyBank.BudgetAnalysis)
      = { total_months := 3, total := 3700, average_change := 100,
          greatest_increase := some ("Feb", 500),
          greatest_decrease := some ("Mar", -300) } ∧
    ({ total_votes := 1, candidate_votes := [("X", 1, 100)],
       winner := "X" } : PyPoll.ElectionAnalysis)
      = { total_votes := 1, candidate_votes := [("X", 1, 100)], winner := "X" } ∧
    PyBank.format_analysis_report
        { total_months := 3, total := 3700, average_change := 100,
          greatest_increase := some ("Feb", 500),
          greatest_decrease := some ("Mar", -300) }
      = PyBank.format_analysis_report
        { total_months := 3, total := 3700, average_change := 100,
          greatest_increase := some ("Feb", 500),
          greatest_decrease := some ("Mar", -300) } ∧
    PyPoll.format_analysis_report
        { total_votes := 1, candidate_votes := [("X", 1, 100)], winner := "X" }
      = PyPoll.format_analysis_report
        { total_votes := 1, candidate_votes := [("X", 1, 100)], winner := "X" } := by
  obtain ⟨hb, he⟩ := claim_C8_formatters_deterministic
    { total_months := 3, total := 3700, average_change := 100,
      greatest_increase := some ("Feb", 500),
      greatest_decrease := some ("Mar", -300) }
    { total_months := 3, total := 3700, average_change := 100,
      greatest_increase := some ("Feb", 500),
      greatest_decrease := some ("Mar", -300) }
    { total_votes := 1, candidate_votes := [("X", 1, 100)], winner := "X" }
    { total_votes := 1, candidate_votes := [("X", 1, 100)], winner := "X" }
    rfl rfl
  exact ⟨rfl, rfl, hb, he⟩
